import Mathlib

/-!
Verification of the `result` Go package (repository sillen102/go-result).

The package provides a generic success/failure container
`Result[S any] struct { success S; failure error }` together with
constructors (`Success`, `Failure`, `Try`), observers (`IsSuccess`,
`IsFailure`, `GetSuccess`, `GetFailure`, `GetSuccessOr`,
`GetSuccessOrElse`), the dispatcher `Match`, and the transformation
operators (`Then`, `ThenWith`, `ThenTry`, `Transform`, `TransformWith`).

Modelling conventions:
* Go's `error` interface value is modelled by `Option E` for an arbitrary
  error payload type `E`; `none` is the nil error, `some e` a non-nil one.
* Go's zero value of the success type `S` is modelled by `default` from an
  `Inhabited S` instance; a struct literal that omits a field sets it to
  the zero value, hence to `default` here.
* `Match` in Go returns `void` and only invokes callbacks for their side
  effects; to observe which callback is invoked we give the embedding a
  generic return type `α`, which the Go code is parametric over in the
  sense that it never inspects what the callbacks do.
-/

set_option autoImplicit false

namespace GoResult

/-- Embedding of the Go struct `Result[S any]{ success S; failure error }`.
The field `failure` is `Option E`: `none` models a nil `error` value. -/
structure Result (S : Type) (E : Type) where
  success : S
  failure : Option E
  deriving DecidableEq

/-- Go `Success[S any](value S) Result[S]`: the struct literal
`Result[S]{success: value}` leaves `failure` at its zero value (nil). -/
def Success {S E : Type} (value : S) : Result S E :=
  { success := value, failure := none }

/-- Go `Failure[S any](err error) Result[S]`: the struct literal
`Result[S]{failure: err}` leaves `success` at the zero value of `S`.
The argument may be the nil error (`none`). -/
def Failure {S E : Type} [Inhabited S] (err : Option E) : Result S E :=
  { success := default, failure := err }

/-- Go method `IsSuccess`: `return r.failure == nil`. -/
def Result.IsSuccess {S E : Type} (r : Result S E) : Bool :=
  r.failure.isNone

/-- Go method `IsFailure`: `return r.failure != nil`. -/
def Result.IsFailure {S E : Type} (r : Result S E) : Bool :=
  r.failure.isSome

/-- Go method `GetSuccess`: `return r.success`, whatever the state. -/
def Result.GetSuccess {S E : Type} (r : Result S E) : S :=
  r.success

/-- Go method `GetFailure`: `return r.failure`. -/
def Result.GetFailure {S E : Type} (r : Result S E) : Option E :=
  r.failure

/-- Go method `GetSuccessOrElse` (src/result.go): return the success value,
or the supplied default if the receiver is a failure. -/
def Result.GetSuccessOrElse {S E : Type} (r : Result S E) (defaultValue : S) : S :=
  if r.IsSuccess then r.success else defaultValue

/-- Go method `GetSuccessOr` (variant source file): byte-for-byte the same
body as `GetSuccessOrElse`. -/
def Result.GetSuccessOr {S E : Type} (r : Result S E) (defaultValue : S) : S :=
  if r.IsSuccess then r.success else defaultValue

/-- Go method `Match(onSuccess func(S), onFailure func(error))` (variant
source file): `if r.IsSuccess() { onSuccess(r.success) } else
{ onFailure(r.failure) }`. The return type is generalised from `void` to an
arbitrary `α` so that the invocation can be observed. -/
def Result.Match {S E α : Type} (r : Result S E)
    (onSuccess : S → α) (onFailure : Option E → α) : α :=
  if r.IsSuccess then onSuccess r.success else onFailure r.failure

/-- Go `Try[S any](value S, err error) Result[S]`:
`if err != nil { return Failure[S](err) }; return Success(value)`. -/
def Try {S E : Type} [Inhabited S] (value : S) (err : Option E) : Result S E :=
  if err.isSome then Failure err else Success value

/-- Go method `ThenTry(value S, err error)` (src/result.go):
`if r.IsFailure() { return r }; if err != nil { return Failure[S](err) };
return Success(value)`. -/
def Result.ThenTry {S E : Type} [Inhabited S] (r : Result S E)
    (value : S) (err : Option E) : Result S E :=
  if r.IsFailure then r
  else if err.isSome then Failure err
  else Success value

/-- Go `Transform[S, NS any](r Result[S], f func(S) NS) Result[NS]`:
`if r.IsFailure() { return Result[NS]{failure: r.failure} };
return Success[NS](f(r.GetSuccess()))`. The omitted `success` field of the
literal is the zero value of `NS`. -/
def Transform {S NS E : Type} [Inhabited NS] (r : Result S E) (f : S → NS) :
    Result NS E :=
  if r.IsFailure then { success := default, failure := r.failure }
  else Success (f r.GetSuccess)

/-- Go method `Then(f func(S) S)` (src/result.go):
`if r.IsFailure() { return Result[S]{failure: r.failure} };
return Success[S](f(r.GetSuccess()))`. -/
def Result.Then {S E : Type} [Inhabited S] (r : Result S E) (f : S → S) :
    Result S E :=
  if r.IsFailure then { success := default, failure := r.failure }
  else Success (f r.GetSuccess)

/-- Go `TransformWith[S, NS any](r Result[S], f func(S) Result[NS])`:
`if r.IsFailure() { return Result[NS]{failure: r.failure} };
return f(r.GetSuccess())`. -/
def TransformWith {S NS E : Type} [Inhabited NS] (r : Result S E)
    (f : S → Result NS E) : Result NS E :=
  if r.IsFailure then { success := default, failure := r.failure }
  else f r.GetSuccess

/-- Go method `ThenWith(f func(S) Result[S])` (src/result.go):
`if r.IsFailure() { return r }; return f(r.GetSuccess())`. -/
def Result.ThenWith {S E : Type} (r : Result S E) (f : S → Result S E) :
    Result S E :=
  if r.IsFailure then r
  else f r.GetSuccess

/-- Invariant used for C7: a failure-state `Result` carries the zero value
of the success type in its `success` field, so `GetSuccess` returns it. -/
def zeroOnFailure {S E : Type} [Inhabited S] (r : Result S E) : Prop :=
  r.IsFailure = true → r.GetSuccess = default

end GoResult

namespace GoResult

/-- C1: for every `Result` `r` in failure state holding error `e` and every
transformation function `f`, each of `r.Then f`, `r.ThenWith f`,
`Transform r f` and `TransformWith r f` is in failure state with the same
held error `e`, and `f` is never invoked (the output does not depend on the
function supplied). -/
theorem failure_short_circuit {S NS E : Type} [Inhabited S] [Inhabited NS]
    (r : Result S E) (e : E) (h : r.failure = some e) :
    (∀ f : S → S,
      (r.Then f).IsFailure = true ∧ (r.Then f).GetFailure = some e) ∧
    (∀ f g : S → S, r.Then f = r.Then g) ∧
    (∀ f : S → Result S E,
      (r.ThenWith f).IsFailure = true ∧ (r.ThenWith f).GetFailure = some e) ∧
    (∀ f g : S → Result S E, r.ThenWith f = r.ThenWith g) ∧
    (∀ f : S → NS,
      (Transform r f).IsFailure = true ∧ (Transform r f).GetFailure = some e) ∧
    (∀ f g : S → NS, Transform r f = Transform r g) ∧
    (∀ f : S → Result NS E,
      (TransformWith r f).IsFailure = true ∧
        (TransformWith r f).GetFailure = some e) ∧
    (∀ f g : S → Result NS E, TransformWith r f = TransformWith r g) := by
  refine ⟨?_, ?_, ?_, ?_, ?_, ?_, ?_, ?_⟩ <;>
    simp [Result.Then, Result.ThenWith, Transform, TransformWith,
      Result.IsFailure, Result.GetFailure, h]

/-- Closed witness for C1 at `r = Failure (some 7) : Result Nat Nat`. -/
theorem failure_short_circuit_witness :
    ((Failure (some 7) : Result Nat Nat).Then (fun n => n + 1)).GetFailure
      = some 7 :=
  ((@failure_short_circuit Nat Nat Nat _ _
      (Failure (some 7) : Result Nat Nat) 7 rfl).1 (fun n => n + 1)).2

/-- C2: if `r = Failure e1` with `e1` a non-nil error, then for every
supplied value and every supplied error (nil or not),
`r.ThenTry value err = Failure e1`: the original error is preserved and the
arguments are ignored entirely. -/
theorem thenTry_short_circuit {S E : Type} [Inhabited S]
    (r : Result S E) (e1 : E) (h : r = Failure (some e1)) :
    ∀ (value : S) (err : Option E), r.ThenTry value err = Failure (some e1) := by
  subst h
  intro value err
  simp [Result.ThenTry, Result.IsFailure, Failure]

/-- Closed witness for C2 at `r = Failure (some 3) : Result Nat Nat`. -/
theorem thenTry_short_circuit_witness :
    (Failure (some 3) : Result Nat Nat).ThenTry 99 (some 4)
      = Failure (some 3) :=
  thenTry_short_circuit (Failure (some 3) : Result Nat Nat) 3 rfl 99 (some 4)

/-- C3: `Try value err` yields `Failure err` when `err` is non-nil and
`Success value` when `err` is nil; and on any success-state receiver,
`ThenTry` makes the same decision. -/
theorem try_decision {S E : Type} [Inhabited S] :
    (∀ (v : S) (e : E), (Try v (some e) : Result S E) = Failure (some e)) ∧
    (∀ v : S, (Try v (none : Option E) : Result S E) = Success v) ∧
    (∀ (r : Result S E), r.IsSuccess = true →
      ∀ (v : S) (e : E), r.ThenTry v (some e) = Failure (some e)) ∧
    (∀ (r : Result S E), r.IsSuccess = true →
      ∀ v : S, r.ThenTry v none = Success v) := by
  refine ⟨?_, ?_, ?_, ?_⟩
  · intro v e
    simp [Try]
  · intro v
    simp [Try]
  · intro r h v e
    have hf : r.failure = none := Option.isNone_iff_eq_none.mp h
    simp [Result.ThenTry, Result.IsFailure, hf]
  · intro r h v
    have hf : r.failure = none := Option.isNone_iff_eq_none.mp h
    simp [Result.ThenTry, Result.IsFailure, hf]

/-- Closed witness for C3 at `r = Success 5 : Result Nat Nat`. -/
theorem try_decision_witness :
    (Success 5 : Result Nat Nat).ThenTry 8 (some 2) = Failure (some 2) :=
  (@try_decision Nat Nat _).2.2.1 (Success 5) rfl 8 2

/-- C4: for every value `v`, `Success v` satisfies `IsSuccess = true`,
`IsFailure = false`, `GetSuccess = v` and `GetFailure = none`; for every
non-nil error `e`, `Failure (some e)` satisfies `IsFailure = true`,
`IsSuccess = false` and `GetFailure = some e`. -/
theorem constructor_observers {S E : Type} [Inhabited S] :
    (∀ v : S, (Success v : Result S E).IsSuccess = true ∧
      (Success v : Result S E).IsFailure = false ∧
      (Success v : Result S E).GetSuccess = v ∧
      (Success v : Result S E).GetFailure = none) ∧
    (∀ e : E, (Failure (some e) : Result S E).IsFailure = true ∧
      (Failure (some e) : Result S E).IsSuccess = false ∧
      (Failure (some e) : Result S E).GetFailure = some e) := by
  refine ⟨?_, ?_⟩ <;>
    simp [Success, Failure, Result.IsSuccess, Result.IsFailure,
      Result.GetSuccess, Result.GetFailure]

/-- C7: `GetSuccess` is total (it is a plain field projection, so it can
never raise): on a success it returns the held value, and every
failure-state `Result` produced by the public API carries the zero value of
the success type, which `GetSuccess` then returns. The conjuncts show that
`Failure` and `Try` establish the `zeroOnFailure` invariant, `Then` and
`Transform` establish it unconditionally, and `ThenWith`, `TransformWith`
and `ThenTry` preserve it. -/
theorem getSuccess_total {S NS E : Type} [Inhabited S] [Inhabited NS] :
    (∀ v : S, (Success v : Result S E).GetSuccess = v) ∧
    (∀ err : Option E, zeroOnFailure (Failure err : Result S E)) ∧
    (∀ (v : S) (err : Option E), zeroOnFailure (Try v err : Result S E)) ∧
    (∀ (r : Result S E) (f : S → S), zeroOnFailure (r.Then f)) ∧
    (∀ (r : Result S E) (f : S → NS), zeroOnFailure (Transform r f)) ∧
    (∀ (r : Result S E) (f : S → Result S E), zeroOnFailure r →
      (∀ s, zeroOnFailure (f s)) → zeroOnFailure (r.ThenWith f)) ∧
    (∀ (r : Result S E) (f : S → Result NS E),
      (∀ s, zeroOnFailure (f s)) → zeroOnFailure (TransformWith r f)) ∧
    (∀ (r : Result S E) (v : S) (err : Option E), zeroOnFailure r →
      zeroOnFailure (r.ThenTry v err)) := by
  refine ⟨?_, ?_, ?_, ?_, ?_, ?_, ?_, ?_⟩
  · intro v
    simp [Success, Result.GetSuccess]
  · intro err h
    simp [Failure, Result.GetSuccess]
  · intro v err h
    rcases err with _ | e
    · simp [Try, Result.IsFailure, Success] at h
    · simp [Try, Failure, Result.GetSuccess]
  · intro r f h
    by_cases hr : r.failure.isSome = true
    · simp [Result.Then, Result.IsFailure, hr, Result.GetSuccess]
    · simp [Result.Then, Result.IsFailure, hr, Success] at h
  · intro r f h
    by_cases hr : r.failure.isSome = true
    · simp [Transform, Result.IsFailure, hr, Result.GetSuccess]
    · simp [Transform, Result.IsFailure, hr, Success] at h
  · intro r f hr hf h
    by_cases hcase : r.IsFailure = true
    · have := hr hcase
      simpa [Result.ThenWith, hcase] using this
    · have hrw : r.ThenWith f = f r.GetSuccess := by
        simp [Result.ThenWith, hcase]
      rw [hrw] at h ⊢
      exact hf r.GetSuccess h
  · intro r f hf h
    by_cases hcase : r.IsFailure = true
    · simp [TransformWith, hcase, Result.GetSuccess]
    · have hrw : TransformWith r f = f r.GetSuccess := by
        simp [TransformWith, hcase]
      rw [hrw] at h ⊢
      exact hf r.GetSuccess h
  · intro r v err hr h
    by_cases hcase : r.failure.isSome = true
    · have hfail : r.IsFailure = true := hcase
      have := hr hfail
      simpa [Result.ThenTry, Result.IsFailure, hcase] using this
    · rcases err with _ | e
      · simp [Result.ThenTry, Result.IsFailure, hcase, Success] at h
      · simp [Result.ThenTry, Result.IsFailure, hcase, Failure,
          Result.GetSuccess]

/-- Closed witness for C7: a failure built from a non-nil error holds the
zero value `0` of `Nat` in its success slot. -/
theorem getSuccess_total_witness :
    (Failure (some 2) : Result Nat Nat).GetSuccess = 0 :=
  (@getSuccess_total Nat Nat Nat _ _).2.1 (some 2) rfl

/-- C8: for every value `v`, non-nil error `e` and default `d`:
`Success v` yields `v` under both `GetSuccessOr` and `GetSuccessOrElse`,
and `Failure (some e)` yields the supplied default `d` under both. -/
theorem getSuccessOr_spec {S E : Type} [Inhabited S] :
    (∀ v d : S, (Success v : Result S E).GetSuccessOr d = v) ∧
    (∀ (e : E) (d : S), (Failure (some e) : Result S E).GetSuccessOr d = d) ∧
    (∀ v d : S, (Success v : Result S E).GetSuccessOrElse d = v) ∧
    (∀ (e : E) (d : S),
      (Failure (some e) : Result S E).GetSuccessOrElse d = d) := by
  refine ⟨?_, ?_, ?_, ?_⟩ <;>
    simp [Result.GetSuccessOr, Result.GetSuccessOrElse, Result.IsSuccess,
      Success, Failure]

/-- C9: `Match` invokes exactly one of the two callbacks: on a success it
returns `onSuccess` applied to the held value and its output does not
depend on `onFailure`; on a failure holding error `e` it returns
`onFailure` applied to that held error and its output does not depend on
`onSuccess`. -/
theorem match_dispatch {S E α : Type} (r : Result S E)
    (onSuccess : S → α) (onFailure : Option E → α) :
    (r.IsSuccess = true →
      r.Match onSuccess onFailure = onSuccess r.success ∧
      ∀ onFailure2 : Option E → α,
        r.Match onSuccess onFailure = r.Match onSuccess onFailure2) ∧
    (∀ e : E, r.failure = some e →
      r.Match onSuccess onFailure = onFailure (some e) ∧
      ∀ onSuccess2 : S → α,
        r.Match onSuccess onFailure = r.Match onSuccess2 onFailure) := by
  constructor
  · intro h
    constructor
    · simp [Result.Match, h]
    · intro onFailure2
      simp [Result.Match, h]
  · intro e he
    have h : r.IsSuccess = false := by
      simp [Result.IsSuccess, he]
    constructor
    · simp [Result.Match, h, he]
    · intro onSuccess2
      simp [Result.Match, h]

/-- Closed witness for C9 at `r = Failure (some 6) : Result Nat Nat` with
callbacks returning the payload tagged into a sum type. -/
theorem match_dispatch_witness :
    (Failure (some 6) : Result Nat Nat).Match
        (fun s => Sum.inl s) (fun e => Sum.inr e)
      = Sum.inr (some 6) :=
  ((match_dispatch (Failure (some 6) : Result Nat Nat)
      (fun s => Sum.inl s) (fun e => Sum.inr e)).2 6 rfl).1

/-- C10: constructing `Failure` from the nil error yields a value that is
observationally a success: `IsSuccess = true`, `IsFailure = false`,
`GetFailure = none`, `GetSuccess = default`, and the value is literally
equal to `Success default`. -/
theorem failure_nil_is_success {S E : Type} [Inhabited S] :
    (Failure (none : Option E) : Result S E).IsSuccess = true ∧
    (Failure (none : Option E) : Result S E).IsFailure = false ∧
    (Failure (none : Option E) : Result S E).GetFailure = none ∧
    (Failure (none : Option E) : Result S E).GetSuccess = default ∧
    (Failure (none : Option E) : Result S E) = Success (default : S) := by
  refine ⟨?_, ?_, ?_, ?_, ?_⟩ <;>
    simp [Failure, Success, Result.IsSuccess, Result.IsFailure,
      Result.GetSuccess, Result.GetFailure]

/-- C5: for every value `v`, `Success(v).Then(id)` equals `Success(v)`,
where `id` is the identity function on the success type. -/
theorem then_identity {S E : Type} [Inhabited S] (v : S) :
    (Success v : Result S E).Then id = Success v := by
  simp [Result.Then, Result.IsFailure, Result.GetSuccess, Success]

/-- C6: for every value `v` and functions `f`, `g` on the success type,
`Success(v).Then(f).Then(g)` equals `Success(v).Then(fun x => g (f x))`. -/
theorem then_composition {S E : Type} [Inhabited S] (v : S) (f g : S → S) :
    ((Success v : Result S E).Then f).Then g
      = (Success v : Result S E).Then (fun x => g (f x)) := by
  simp [Result.Then, Result.IsFailure, Result.GetSuccess, Success]

end GoResult
